import Mathlib

/-!
Verification of the peony-twitter core against its specification.

This file shallowly embeds the parts of `src/peony/client.py` and
`src/peony/utils.py` that the spec's claims are about:

* a small model of Python values (`PyObj`) with the container operations
  (`pyGetitem`, `pyIter`, `pyLen`, `pyStr`, `pyRepr`) that
  `utils.PeonyResponse` delegates to its wrapped payload;
* the `PeonyResponse` envelope and its delegation methods;
* Python attribute assignment on the envelope (`peonyResponse_setattr`,
  default object semantics: the class defines no setattr override,
  unlike `JSONObject` which raises `AttributeError`);
* `BasePeonyClient.__getitem__` (`getitem_values` for the values
  resolution, `pyFormatTokens`/`renderFmtToks` for `str.format` over the
  `\x7bapi\x7d`/`\x7bversion\x7d` placeholders, `rstripSlash` for
  `str.rstrip`, and `getitem` for the whole item access);
* `BasePeonyClient.request`'s 2xx content-decoding decision
  (`decodeCondition`, `requestModel`);
* the `utils.handler_decorator` / `utils.error_handler` retry loop
  (`handlerCall`, `runHandler`, `errorHandlerRun`) over a script of
  per-invocation outcomes.
-/

/-- A model of the Python values flowing through the client: JSON-like
payloads (strings, integers, booleans, `None`, lists, dicts with string
keys), which is what the injected `loads` produces and what
`PeonyResponse` wraps. -/
inductive PyObj where
  | str (s : String)
  | num (n : Int)
  | bool (b : Bool)
  | none
  | list (xs : List PyObj)
  | dict (xs : List (String × PyObj))

mutual

/-- Python `repr` on `PyObj` payloads (single-quoted strings,
`True`/`False`/`None`, bracketed lists, braced dicts). -/
def pyRepr : PyObj → String
  | .str s => "\x27" ++ s ++ "\x27"
  | .num n => toString n
  | .bool b => if b then "True" else "False"
  | .none => "None"
  | .list xs => "[" ++ pyReprSeq xs ++ "]"
  | .dict xs => "\x7b" ++ pyReprPairs xs ++ "\x7d"

/-- Comma-separated `repr` of the elements of a Python list. -/
def pyReprSeq : List PyObj → String
  | [] => ""
  | [x] => pyRepr x
  | x :: xs => pyRepr x ++ ", " ++ pyReprSeq xs

/-- Comma-separated `repr` of the key-value pairs of a Python dict. -/
def pyReprPairs : List (String × PyObj) → String
  | [] => ""
  | [(k, v)] => "\x27" ++ k ++ "\x27: " ++ pyRepr v
  | (k, v) :: xs => "\x27" ++ k ++ "\x27: " ++ pyRepr v ++ ", " ++ pyReprPairs xs

end

/-- Python `str` on `PyObj` payloads: the string itself for strings,
`repr` otherwise. -/
def pyStr : PyObj → String
  | .str s => s
  | o => pyRepr o

/-- Python item access `payload[key]` on a `PyObj` payload: dict lookup by
string key, list indexing by integer (with negative indices counting from
the end). `Option.none` models the lookup raising. -/
def pyGetitem : PyObj → PyObj → Option PyObj
  | .dict xs, .str k => (xs.find? (fun kv => kv.1 == k)).map (·.2)
  | .list xs, .num i =>
      if i < 0 then xs.get? (xs.length - (-i).toNat)
      else xs.get? i.toNat
  | _, _ => Option.none

/-- Python iteration `iter(payload)` on a `PyObj` payload: dict keys, list
elements, one-character strings for a string. `Option.none` models
`TypeError` on non-iterables. -/
def pyIter : PyObj → Option (List PyObj)
  | .dict xs => some (xs.map (fun kv => .str kv.1))
  | .list xs => some xs
  | .str s => some (s.data.map (fun c => .str (String.mk [c])))
  | _ => Option.none

/-- Python `len(payload)` on a `PyObj` payload; `Option.none` models
`TypeError` on objects without a length. -/
def pyLen : PyObj → Option Nat
  | .dict xs => some xs.length
  | .list xs => some xs.length
  | .str s => some s.length
  | _ => Option.none

/-- Python attribute access on a payload: `loads` builds dicts as
`JSONObject`s, whose `__getattr__` returns `self[key]` for present keys;
other attribute access on payload data fails. -/
def pyGetattr : PyObj → String → Option PyObj
  | .dict xs, k => (xs.find? (fun kv => kv.1 == k)).map (·.2)
  | _, _ => Option.none

/-- `utils.PeonyResponse.__init__`: the envelope stores the decoded
payload, the response headers, the resolved URL and the request
arguments. -/
structure PeonyResponseO where
  response : PyObj
  headers : PyObj
  url : PyObj
  request : PyObj

/-- `PeonyResponse.__getitem__`: `return self.response[key]`. -/
def envGetitem (e : PeonyResponseO) (k : PyObj) : Option PyObj :=
  pyGetitem e.response k

/-- `PeonyResponse.__iter__`: `return iter(self.response)`. -/
def envIter (e : PeonyResponseO) : Option (List PyObj) :=
  pyIter e.response

/-- `PeonyResponse.__len__`: `return len(self.response)`. -/
def envLen (e : PeonyResponseO) : Option Nat :=
  pyLen e.response

/-- `PeonyResponse.__str__`: `return str(self.response)`. -/
def envStr (e : PeonyResponseO) : String :=
  pyStr e.response

/-- `PeonyResponse.__repr__`: `return repr(self.response)`. -/
def envRepr (e : PeonyResponseO) : String :=
  pyRepr e.response

/-- Python attribute access on the envelope: the instance attributes
`response`, `headers`, `url`, `request` are found directly; for any other
name `PeonyResponse.__getattr__` forwards to
`getattr(self.response, key)`. -/
def envAttr (e : PeonyResponseO) (k : String) : Option PyObj :=
  if k = "response" then some e.response
  else if k = "headers" then some e.headers
  else if k = "url" then some e.url
  else if k = "request" then some e.request
  else pyGetattr e.response k

/-- The fields of a `PeonyResponse` instance. -/
inductive EnvField where
  | response | headers | url | request
deriving DecidableEq

/-- Functional update of one envelope field, the effect of a Python
attribute assignment on the instance. -/
def setField (e : PeonyResponseO) : EnvField → PyObj → PeonyResponseO
  | .response, v => { e with response := v }
  | .headers, v => { e with headers := v }
  | .url, v => { e with url := v }
  | .request, v => { e with request := v }

/-- The Python errors the embedded operations can raise. -/
inductive PyError where
  | typeError
  | keyError (k : String)
  | valueError
  | attributeError
  | formatError
  | httpError (status : Nat) (body : String)
deriving DecidableEq

/-- Attribute assignment on a `PeonyResponse`: the class defines no
`__setattr__` override, so Python's default object semantics apply and
the assignment succeeds, storing the new value. -/
def peonyResponse_setattr (e : PeonyResponseO) (f : EnvField) (v : PyObj) :
    Except PyError PeonyResponseO :=
  .ok (setField e f v)

/-- Attribute assignment on a `utils.JSONObject` payload:
`__setattr__` always raises `AttributeError` (read-only instances). -/
def jsonObject_setattr (_d : List (String × PyObj)) (_k : String) (_v : PyObj) :
    Except PyError (List (String × PyObj)) :=
  .error .attributeError

/-- The read-style operations callers can perform on an envelope. -/
inductive EnvOp where
  | getitem (k : PyObj)
  | iteration
  | length
  | strOp
  | reprOp
  | attr (name : String)

/-- Results of envelope operations. -/
inductive EnvOpResult where
  | obj (o : Option PyObj)
  | objs (l : Option (List PyObj))
  | nat (n : Option Nat)
  | strR (s : String)

/-- Running one envelope operation, paired with the envelope state after
the operation: the method bodies of `PeonyResponse` only read
`self.response` (or an instance attribute) and contain no assignment, so
the state after the call is the state before it. -/
def applyEnvOp (e : PeonyResponseO) : EnvOp → EnvOpResult × PeonyResponseO
  | .getitem k => (.obj (envGetitem e k), e)
  | .iteration => (.objs (envIter e), e)
  | .length => (.nat (envLen e), e)
  | .strOp => (.strR (envStr e), e)
  | .reprOp => (.strR (envRepr e), e)
  | .attr n => (.obj (envAttr e n), e)

/-- The client-level configuration state after `BasePeonyClient.__init__`:
`api_version` and `base_url` are never `None` there (a `None` argument is
replaced by the library default), while `suffix` is stored as given and
may be `None`. -/
structure ClientConfig where
  streaming_apis : List String
  base_url : String
  api_version : String
  suffix : Option String
deriving DecidableEq

/-- The shapes of the argument of `BasePeonyClient.__getitem__` that the
spec's call shapes cover: a dict with string keys and string-or-`None`
values, a set, a single string, or a list/tuple of string-or-`None`
entries. -/
inductive GetitemArg where
  | dict (d : List (String × Option String))
  | set (s : List String)
  | str (s : String)
  | seq (l : List (Option String))

/-- Python dict lookup `d[k]` on the modelled dict argument:
`Option.none` when the key is absent (a `KeyError`). -/
def dictLookup (d : List (String × Option String)) (k : String) :
    Option (Option String) :=
  (d.find? (fun kv => kv.1 == k)).map (·.2)

/-- The `(api, version, suffix, base_url)` values `__getitem__` resolves
before building the path object. -/
structure ResolvedValues where
  api : Option String
  version : Option String
  suffix : Option String
  base_url : Option String
deriving DecidableEq

/-- `default if value is None else value`, the per-position replacement
applied to list/tuple arguments of `__getitem__`. -/
def fillDefault (v d : Option String) : Option String :=
  match v with
  | Option.none => d
  | some x => some x

/-- The `defaults` tuple of `BasePeonyClient.__getitem__`:
`(None, self.api_version, self._suffix, self.base_url)`. -/
def getitemDefaults (cfg : ClientConfig) : List (Option String) :=
  [Option.none, some cfg.api_version, cfg.suffix, some cfg.base_url]

/-- The values-resolution phase of `BasePeonyClient.__getitem__` up to
the unpacking `api, version, suffix, base_url = values`:

* a dict is read at the four keys `api`, `version`, `suffix`,
  `base_url` in that order (`KeyError` on the first missing one);
* a set raises `TypeError`;
* a string becomes `[values, *defaults[1:]]`;
* a non-empty list/tuple is padded with `None` to four entries, zipped
  with the defaults, pairs equal to `(None, None)` are dropped, `None`
  entries are replaced by their default, and the result must unpack into
  exactly four values (`ValueError` otherwise);
* an empty list/tuple skips all branches and fails to unpack
  (`ValueError`). -/
def getitem_values (cfg : ClientConfig) : GetitemArg → Except PyError ResolvedValues
  | .dict d =>
      match dictLookup d "api" with
      | Option.none => .error (.keyError "api")
      | some a =>
        match dictLookup d "version" with
        | Option.none => .error (.keyError "version")
        | some vv =>
          match dictLookup d "suffix" with
          | Option.none => .error (.keyError "suffix")
          | some sfx =>
            match dictLookup d "base_url" with
            | Option.none => .error (.keyError "base_url")
            | some bu => .ok ⟨a, vv, sfx, bu⟩
  | .set _ => .error .typeError
  | .str s => .ok ⟨some s, some cfg.api_version, cfg.suffix, some cfg.base_url⟩
  | .seq l =>
      if l.isEmpty then
        .error .valueError
      else
        let padded := if l.length < 4 then l ++ List.replicate (4 - l.length) Option.none else l
        let combined :=
          ((padded.zip (getitemDefaults cfg)).filter
              (fun vd => decide (vd ≠ (Option.none, Option.none)))).map
            (fun vd => fillDefault vd.1 vd.2)
        match combined with
        | [a, vv, sfx, bu] => .ok ⟨a, vv, sfx, bu⟩
        | _ => .error .valueError

/-- Tokens of a `str.format` template: literal characters and the
`\x7bapi\x7d` / `\x7bversion\x7d` replacement fields that
`base_url.format(api=api, version=version)` substitutes. -/
inductive FmtTok where
  | lit (c : Char)
  | phApi
  | phVersion
deriving DecidableEq

/-- Fuel-indexed parser for `str.format` templates with the named fields
`api` and `version`: `\x7b\x7b` and `\x7d\x7d` are escaped braces, any
other field name or an unterminated field is a format error
(`Option.none`), mirroring `str.format` raising when given only the
keyword arguments `api` and `version`. (Format specs such as
`\x7bapi:>10\x7d` are not modelled.) -/
def pyFormatTokensAux : Nat → List Char → Option (List FmtTok)
  | _, [] => some []
  | 0, _ :: _ => Option.none
  | n + 1, '{' :: '{' :: r => (pyFormatTokensAux n r).map (FmtTok.lit '{' :: ·)
  | n + 1, '}' :: '}' :: r => (pyFormatTokensAux n r).map (FmtTok.lit '}' :: ·)
  | n + 1, '{' :: r =>
      match r.dropWhile (fun c => c ≠ '}') with
      | [] => Option.none
      | _ :: r2 =>
          let name := r.takeWhile (fun c => c ≠ '}')
          if name = ['a', 'p', 'i'] then (pyFormatTokensAux n r2).map (FmtTok.phApi :: ·)
          else if name = ['v', 'e', 'r', 's', 'i', 'o', 'n'] then
            (pyFormatTokensAux n r2).map (FmtTok.phVersion :: ·)
          else Option.none
  | _, '}' :: _ => Option.none
  | n + 1, c :: r => (pyFormatTokensAux n r).map (FmtTok.lit c :: ·)

/-- Parse a `str.format` template into tokens. -/
def pyFormatTokens (l : List Char) : Option (List FmtTok) :=
  pyFormatTokensAux (l.length + 1) l

/-- Render a parsed template, substituting every `api` and `version`
replacement field. -/
def renderFmtToks : List FmtTok → String → String → List Char
  | [], _, _ => []
  | .lit c :: r, a, v => c :: renderFmtToks r a v
  | .phApi :: r, a, v => a.data ++ renderFmtToks r a v
  | .phVersion :: r, a, v => v.data ++ renderFmtToks r a v

/-- Python `str(x)` for a string-or-`None` value interpolated by
`str.format`: `None` renders as the text `None`. -/
def pyStrOpt : Option String → String
  | Option.none => "None"
  | some s => s

/-- Python `str.rstrip` with argument `/`: drop every trailing slash. -/
def rstripSlash (s : String) : String :=
  String.mk ((s.data.reverse.dropWhile (fun c => c = '/')).reverse)

/-- Whether a URL still ends with a slash. -/
def hasTrailingSlash (s : String) : Bool :=
  decide (s.data.getLast? = some '/')

/-- The path object `__getitem__` returns: an `APIPath` or
`StreamingAPIPath` built from `[base_url]`, the resolved suffix, and the
streaming classification `api in self.streaming_apis`. -/
structure PathObj where
  path : List String
  suffix : Option String
  streaming : Bool
deriving DecidableEq

/-- `BasePeonyClient.__getitem__`: resolve the values, format the base
URL template with the resolved `api` and `version` (`AttributeError` if
`base_url` is `None`, a format error if the template is malformed or
names an unknown field), strip trailing slashes, and build the path
object, tagged streaming exactly when the resolved `api` is a member of
`streaming_apis`. -/
def getitem (cfg : ClientConfig) (v : GetitemArg) : Except PyError PathObj :=
  match getitem_values cfg v with
  | .error e => .error e
  | .ok r =>
    match r.base_url with
    | Option.none => .error .attributeError
    | some tmpl =>
      match pyFormatTokens tmpl.data with
      | Option.none => .error .formatError
      | some toks =>
        let base := rstripSlash
          (String.mk (renderFmtToks toks (pyStrOpt r.api) (pyStrOpt r.version)))
        .ok { path := [base], suffix := r.suffix,
              streaming := match r.api with
                | some a => cfg.streaming_apis.contains a
                | Option.none => false }

/-- The possible values of the `json` parameter of
`BasePeonyClient.request`: `True` forces json decoding, `False` is the
default (the flag left unset), `None` disables json decoding even for
`.json` URLs. -/
inductive PyBool3 where
  | pyTrue
  | pyFalse
  | pyNone
deriving DecidableEq

/-- Python truthiness of the `json` flag (`None` and `False` are falsy). -/
def pyTruthy : PyBool3 → Bool
  | .pyTrue => true
  | .pyFalse => false
  | .pyNone => false

/-- Python `json is not None`. -/
def pyIsNotNone : PyBool3 → Bool
  | .pyNone => false
  | _ => true

/-- Python `url.endswith(sfx)`. -/
def urlEndsWith (url sfx : String) : Bool :=
  List.isSuffixOf sfx.data url.data

/-- The decoding decision of `BasePeonyClient.request` on a 2xx
response: `json or url.endswith(".json") and json is not None` (Python
precedence: `or` binds weaker than `and`). -/
def decodeCondition (json : PyBool3) (url : String) : Bool :=
  pyTruthy json || (urlEndsWith url ".json" && pyIsNotNone json)

/-- The decoding rule in the words of the spec: decode when the flag is
true, or when it is unset (not explicitly disabled) and the URL ends
with the given JSON suffix. -/
def specDecodeRule (json : PyBool3) (url : String) (jsonSuffix : String) : Bool :=
  match json with
  | .pyTrue => true
  | .pyFalse => urlEndsWith url jsonSuffix
  | .pyNone => false

/-- The HTTP response visible to `BasePeonyClient.request`: status code,
body text, headers, and the response URL (`response.url`, which aiohttp
reports and may differ from the requested URL). -/
structure HttpResp where
  status : Nat
  body : String
  respHeaders : PyObj
  respUrl : PyObj

/-- The response handling of `BasePeonyClient.request`: on a 2xx status
the body is decoded with the injected `loads` function or kept as text
according to `decodeCondition`, and wrapped in a `PeonyResponse`
together with the response headers, the response URL and the prepared
request arguments; a non-2xx status raises (`exceptions.throw`, which is
not part of the analysed sources, is modelled as an error carrying the
status and body, as the spec describes the non-2xx classification). -/
def requestModel (ld : String → PyObj) (json : PyBool3) (url : String)
    (reqKwargs : PyObj) (resp : HttpResp) : Except PyError PeonyResponseO :=
  if resp.status / 100 = 2 then
    .ok { response :=
            if decodeCondition json url then ld resp.body else .str resp.body,
          headers := resp.respHeaders,
          url := resp.respUrl,
          request := reqKwargs }
  else
    .error (.httpError resp.status resp.body)

/-- What one invocation of the wrapped request raises when it does not
succeed: `exceptions.RateLimitExceeded` carrying `reset_in`,
`asyncio.TimeoutError`, or any other exception (abstract type `ε`). -/
inductive Raised (ε : Type) where
  | rateLimited (resetIn : Nat)
  | timedOut
  | other (e : ε)

/-- The outcome of one invocation of the wrapped request: a successful
value or a raised exception. -/
inductive Outcome (α ε : Type) where
  | success (v : α)
  | raised (r : Raised ε)

/-- The observable result of running the (decorated or bare) request on
a script of per-invocation outcomes: the value or propagated exception,
the number of invocations performed, and the total seconds slept;
`exhausted` marks the artificial case of the loop needing more outcomes
than the script provides. -/
inductive RunResult (α ε : Type) where
  | ok (v : α) (calls slept : Nat)
  | err (r : Raised ε) (calls slept : Nat)
  | exhausted (calls slept : Nat)

/-- The retry loop of `utils.error_handler`'s `decorated_request`, run
over a script whose `i`-th entry is the outcome of the `i+1`-th
invocation of the wrapped request: a success is returned; on
`RateLimitExceeded` the loop sleeps `int(e.reset_in) + 1` seconds and
retries; on `asyncio.TimeoutError` it retries immediately; any other
exception is re-raised. `calls` and `slept` accumulate the invocation
count and the seconds slept. -/
def runHandler {α ε : Type} : List (Outcome α ε) → Nat → Nat → RunResult α ε
  | [], calls, slept => .exhausted calls slept
  | .success v :: _, calls, slept => .ok v (calls + 1) slept
  | .raised (.rateLimited r) :: rest, calls, slept =>
      runHandler rest (calls + 1) (slept + (r + 1))
  | .raised .timedOut :: rest, calls, slept =>
      runHandler rest (calls + 1) slept
  | .raised (.other e) :: _, calls, slept => .err (.other e) (calls + 1) slept

/-- Invoking the bare, undecorated request once: the first scripted
outcome is returned or raised as is. -/
def invokeOnce {α ε : Type} : List (Outcome α ε) → RunResult α ε
  | [] => .exhausted 0 0
  | .success v :: _ => .ok v 1 0
  | .raised r :: _ => .err r 1 0

/-- Running the request as wrapped by `error_handler(request,
error_handling)`: with error handling enabled the retry loop runs,
otherwise the bare request is invoked directly. -/
def errorHandlerRun {α ε : Type} (error_handling : Bool)
    (script : List (Outcome α ε)) : RunResult α ε :=
  if error_handling then runHandler script 0 0 else invokeOnce script

/-- `utils.handler_decorator.__call__`: with `error_handling` true the
decorated handler is applied to the request, otherwise the request
object itself is returned unchanged. -/
def handlerCall {Op : Type} (wrapped : Op → Op) (request : Op)
    (error_handling : Bool) : Op :=
  if error_handling then wrapped request else request

/-- Modelled from the spec: the default client configuration drawn from
the `general` module, which is not among the analysed sources — default
API version, default suffix `.json`, the Twitter base-url template with
`api` and `version` replacement fields, and the streaming-subdomain
set. -/
def twitterConfig : ClientConfig :=
  { streaming_apis := ["stream", "userstream", "sitestream"],
    base_url := "https://\x7bapi\x7d.twitter.com/\x7bversion\x7d",
    api_version := "1.1",
    suffix := some ".json" }

/-! ## Helper lemmas -/

/-- The head surviving a `dropWhile` does not satisfy the predicate. -/
theorem head?_dropWhile_eq_some {α : Type} (f : α → Bool) (l : List α) (c : α)
    (h : (l.dropWhile f).head? = some c) : f c = false := by
  induction l with
  | nil => simp [List.dropWhile] at h
  | cons a t ih =>
    by_cases hf : f a
    · rw [List.dropWhile_cons, if_pos hf] at h
      exact ih h
    · rw [List.dropWhile_cons, if_neg hf] at h
      simp at h
      subst h
      simpa using hf

/-- `rstrip` leaves no trailing slash. -/
theorem hasTrailingSlash_rstripSlash (s : String) :
    hasTrailingSlash (rstripSlash s) = false := by
  unfold hasTrailingSlash rstripSlash
  rw [decide_eq_false_iff_not]
  intro hlast
  rw [show (String.mk ((s.data.reverse.dropWhile (fun c => c = '/')).reverse)).data
        = (s.data.reverse.dropWhile (fun c => c = '/')).reverse from rfl] at hlast
  rw [List.getLast?_reverse] at hlast
  have := head?_dropWhile_eq_some _ _ _ hlast
  simp at this

/-- Unrolling the retry loop across a block of consecutive timeouts: each
one costs one invocation and no sleep. -/
theorem runHandler_timeout_replicate {α ε : Type} (N : Nat)
    (rest : List (Outcome α ε)) (calls slept : Nat) :
    runHandler (List.replicate N (Outcome.raised Raised.timedOut) ++ rest) calls slept =
      runHandler rest (calls + N) slept := by
  induction N generalizing calls with
  | zero => simp
  | succ n ih =>
    rw [List.replicate_succ, List.cons_append, runHandler, ih (calls + 1)]
    have h : calls + 1 + n = calls + (n + 1) := by omega
    rw [h]

/-- When the values resolution and the template both succeed, `getitem`
returns the path object built from the rendered, slash-stripped URL. -/
theorem getitem_eq_of_resolved (cfg : ClientConfig) (v : GetitemArg)
    (r : ResolvedValues) (tmpl : String) (toks : List FmtTok)
    (h1 : getitem_values cfg v = Except.ok r) (h2 : r.base_url = some tmpl)
    (h3 : pyFormatTokens tmpl.data = some toks) :
    getitem cfg v = Except.ok
      { path := [rstripSlash (String.mk
          (renderFmtToks toks (pyStrOpt r.api) (pyStrOpt r.version)))],
        suffix := r.suffix,
        streaming := match r.api with
          | some a => cfg.streaming_apis.contains a
          | Option.none => false } := by
  unfold getitem
  split
  · next heq => rw [h1] at heq; cases heq
  · next r' heq =>
    rw [h1] at heq
    cases heq
    split
    · next hb => rw [h2] at hb; cases hb
    · next tmpl' hb =>
      rw [h2] at hb
      cases hb
      split
      · next hp => rw [h3] at hp; cases hp
      · next toks' hp =>
        rw [h3] at hp
        cases hp
        rfl

/-- The decoding condition of `request` coincides with the spec's rule
taken at the literal suffix `.json`. -/
theorem decodeCondition_eq_literal (json : PyBool3) (url : String) :
    decodeCondition json url = specDecodeRule json url ".json" := by
  cases json <;> simp [decodeCondition, specDecodeRule, pyTruthy, pyIsNotNone]

/-! ## Claims -/

/-- C1, counterexample. With the client configured with suffix `.xml`, a
200 response for a URL ending in `.xml` and the json flag left unset is
returned as plain text by the code, while the claim's rule (decode when
the URL ends with the configured JSON suffix) demands a decoded body:
the decoded body would be `(fun s => PyObj.dict [])` applied to the
body, not `PyObj.str "b"`. -/
theorem request_configured_suffix_counterexample :
    decodeCondition PyBool3.pyFalse "http://x/a.xml" = false ∧
    specDecodeRule PyBool3.pyFalse "http://x/a.xml" ".xml" = true ∧
    requestModel (fun _ => PyObj.dict []) PyBool3.pyFalse "http://x/a.xml"
        PyObj.none ⟨200, "b", PyObj.none, PyObj.none⟩ =
      Except.ok ⟨PyObj.str "b", PyObj.none, PyObj.none, PyObj.none⟩ :=
  ⟨rfl, rfl, rfl⟩

/-- C1 (amended: the URL suffix that triggers decoding is the literal
`.json`, not the configured suffix). On every 2xx response, the body is
decoded with the injected loads function exactly when the json flag is
true, or when it is unset (not explicitly `None`) and the URL ends with
the literal `.json`; otherwise it is returned as plain text, in the
envelope together with the headers, response URL and request
arguments. -/
theorem request_json_decoding_literal_suffix (ld : String → PyObj)
    (json : PyBool3) (url : String) (reqKwargs : PyObj) (resp : HttpResp)
    (h2xx : resp.status / 100 = 2) :
    requestModel ld json url reqKwargs resp =
      Except.ok { response := if specDecodeRule json url ".json"
                    then ld resp.body else PyObj.str resp.body,
                  headers := resp.respHeaders,
                  url := resp.respUrl,
                  request := reqKwargs } := by
  unfold requestModel
  rw [if_pos h2xx, decodeCondition_eq_literal]

/-- C1, witness at a 200 response with the flag forced true. -/
theorem request_json_decoding_literal_suffix_witness :
    requestModel (fun _ => PyObj.none) PyBool3.pyTrue "u" PyObj.none
        ⟨200, "b", PyObj.none, PyObj.none⟩ =
      Except.ok ⟨PyObj.none, PyObj.none, PyObj.none, PyObj.none⟩ :=
  request_json_decoding_literal_suffix (fun _ => PyObj.none) PyBool3.pyTrue "u"
    PyObj.none ⟨200, "b", PyObj.none, PyObj.none⟩ (by norm_num)

/-- C2, counterexample. An empty list/tuple — zero override values — does
not produce a path object with all defaults: it skips every branch of
`__getitem__` and fails at the unpacking with a `ValueError`. -/
theorem getitem_empty_seq_counterexample :
    getitem twitterConfig (GetitemArg.seq []) = Except.error PyError.valueError :=
  rfl

/-- C2 (amended: between one and four values; the first, api, position
must hold an actual value and the client-level defaults it relies on
must themselves be set, since a position where both the given value and
the default are `None` is dropped and the unpacking then fails; zero
values raise `ValueError`). For every list or tuple of one to four
non-`None` values in the order (api, version, suffix, base_url), with
the client suffix default set, resolution keeps the given values and
fills each omitted trailing position with the client-level default, and
a path object is produced whenever the selected base-url template
parses. -/
theorem getitem_seq_fills_trailing_defaults (cfg : ClientConfig) (sfx : String)
    (l : List (Option String)) (hsfx : cfg.suffix = some sfx) (hne : l ≠ [])
    (hlen : l.length ≤ 4) (hall : ∀ x ∈ l, x ≠ Option.none) :
    getitem_values cfg (GetitemArg.seq l) =
      Except.ok ⟨l.getD 0 Option.none,
        fillDefault (l.getD 1 Option.none) (some cfg.api_version),
        fillDefault (l.getD 2 Option.none) cfg.suffix,
        fillDefault (l.getD 3 Option.none) (some cfg.base_url)⟩ ∧
    ∀ tmpl toks, fillDefault (l.getD 3 Option.none) (some cfg.base_url) = some tmpl →
      pyFormatTokens tmpl.data = some toks →
      ∃ p, getitem cfg (GetitemArg.seq l) = Except.ok p := by
  have hvals : getitem_values cfg (GetitemArg.seq l) =
      Except.ok ⟨l.getD 0 Option.none,
        fillDefault (l.getD 1 Option.none) (some cfg.api_version),
        fillDefault (l.getD 2 Option.none) cfg.suffix,
        fillDefault (l.getD 3 Option.none) (some cfg.base_url)⟩ := by
    obtain ⟨sa, bu, av, osfx⟩ := cfg
    simp only at hsfx
    subst hsfx
    rcases l with _ | ⟨x0, _ | ⟨x1, _ | ⟨x2, _ | ⟨x3, _ | ⟨x4, t⟩⟩⟩⟩⟩
    · exact absurd rfl hne
    · obtain ⟨v0, rfl⟩ := Option.ne_none_iff_exists'.mp (hall x0 (by simp))
      rfl
    · obtain ⟨v0, rfl⟩ := Option.ne_none_iff_exists'.mp (hall x0 (by simp))
      obtain ⟨v1, rfl⟩ := Option.ne_none_iff_exists'.mp (hall x1 (by simp))
      rfl
    · obtain ⟨v0, rfl⟩ := Option.ne_none_iff_exists'.mp (hall x0 (by simp))
      obtain ⟨v1, rfl⟩ := Option.ne_none_iff_exists'.mp (hall x1 (by simp))
      obtain ⟨v2, rfl⟩ := Option.ne_none_iff_exists'.mp (hall x2 (by simp))
      rfl
    · obtain ⟨v0, rfl⟩ := Option.ne_none_iff_exists'.mp (hall x0 (by simp))
      obtain ⟨v1, rfl⟩ := Option.ne_none_iff_exists'.mp (hall x1 (by simp))
      obtain ⟨v2, rfl⟩ := Option.ne_none_iff_exists'.mp (hall x2 (by simp))
      obtain ⟨v3, rfl⟩ := Option.ne_none_iff_exists'.mp (hall x3 (by simp))
      rfl
    · simp at hlen
  refine ⟨hvals, fun tmpl toks htmpl htoks => ?_⟩
  exact ⟨_, getitem_eq_of_resolved cfg (GetitemArg.seq l) _ tmpl toks hvals htmpl htoks⟩

/-- C2, witness: one override value, the three trailing positions filled
from the default configuration. -/
theorem getitem_seq_fills_trailing_defaults_witness :
    getitem_values twitterConfig (GetitemArg.seq [some "api"]) =
      Except.ok ⟨some "api", some "1.1", some ".json",
        some "https://\x7bapi\x7d.twitter.com/\x7bversion\x7d"⟩ :=
  (getitem_seq_fills_trailing_defaults twitterConfig ".json" [some "api"] rfl
    (by simp) (by simp) (by simp)).1

/-- C3: with error handling enabled, N timeout failures followed by one
success return the success with exactly N+1 invocations (and no sleep),
and any failure other than a timeout or a rate limit propagates after
exactly one invocation, whatever outcomes would have followed. -/
theorem error_handler_timeout_retries_and_propagation {α ε : Type} :
    (∀ (N : Nat) (v : α),
      errorHandlerRun (ε := ε) true
          (List.replicate N (Outcome.raised Raised.timedOut) ++ [Outcome.success v]) =
        RunResult.ok v (N + 1) 0) ∧
    (∀ (e : ε) (rest : List (Outcome α ε)),
      errorHandlerRun true (Outcome.raised (Raised.other e) :: rest) =
        RunResult.err (Raised.other e) 1 0) := by
  constructor
  · intro N v
    rw [errorHandlerRun, if_pos rfl, runHandler_timeout_replicate, runHandler,
      Nat.zero_add]
  · intro e rest
    rfl

/-- C4: after a rate-limited failure carrying `reset_in = r`, the handler
sleeps exactly `r + 1` seconds before the next invocation; in
particular, with `reset_in = 5` the run of one rate limit followed by a
success performs 2 invocations with 6 seconds slept, and 6 ≥ 6. -/
theorem error_handler_rate_limit_wait {α ε : Type} :
    (∀ (r : Nat) (rest : List (Outcome α ε)) (calls slept : Nat),
      runHandler (Outcome.raised (Raised.rateLimited r) :: rest) calls slept =
        runHandler rest (calls + 1) (slept + (r + 1))) ∧
    (∀ v : α, errorHandlerRun (ε := ε) true
        [Outcome.raised (Raised.rateLimited 5), Outcome.success v] =
        RunResult.ok v 2 6) ∧
    6 ≤ 5 + 1 :=
  ⟨fun _ _ _ _ => rfl, fun _ => rfl, by norm_num⟩

/-- C5: applying the handler decorator with `error_handling = False`
returns the request object itself, so every observation of the wrapped
operation (result, raised failure, invocation count) equals that of the
original operation, and running the error handler disabled is invoking
the bare operation once. -/
theorem handler_decorator_disabled_is_identity :
    (∀ {Op : Type} (wrapped : Op → Op) (request : Op),
      handlerCall wrapped request false = request) ∧
    (∀ {Op Res : Type} (sem : Op → Res) (wrapped : Op → Op) (request : Op),
      sem (handlerCall wrapped request false) = sem request) ∧
    (∀ {α ε : Type} (script : List (Outcome α ε)),
      errorHandlerRun false script = invokeOnce script) :=
  ⟨fun _ _ => rfl, fun _ _ _ => rfl, fun _ => rfl⟩

/-- C6, counterexample. Attribute assignment on a `PeonyResponse` is not
rejected: `PeonyResponse` defines no `__setattr__` override, so
assigning the `response` field succeeds and changes the envelope's
state. -/
theorem peony_response_setattr_not_rejected_counterexample :
    peonyResponse_setattr ⟨PyObj.none, PyObj.none, PyObj.none, PyObj.none⟩
        EnvField.response (PyObj.num 1) =
      Except.ok ⟨PyObj.num 1, PyObj.none, PyObj.none, PyObj.none⟩ ∧
    (setField ⟨PyObj.none, PyObj.none, PyObj.none, PyObj.none⟩
        EnvField.response (PyObj.num 1)).response = PyObj.num 1 :=
  ⟨rfl, rfl⟩

/-- C6 (amended: the envelope's own operations never change its fields,
but mutation attempts are not rejected — plain attribute assignment
succeeds and updates the field, so immutability is by convention only;
it is the `JSONObject` payload type, not the envelope, that rejects
mutation). -/
theorem peony_response_ops_pure_but_assignable :
    (∀ (e : PeonyResponseO) (op : EnvOp), (applyEnvOp e op).2 = e) ∧
    (∀ (e : PeonyResponseO) (f : EnvField) (v : PyObj),
      peonyResponse_setattr e f v = Except.ok (setField e f v)) ∧
    (∀ (e : PeonyResponseO) (v : PyObj),
      (setField e EnvField.response v).response = v) ∧
    (∀ (d : List (String × PyObj)) (k : String) (v : PyObj),
      jsonObject_setattr d k v = Except.error PyError.attributeError) :=
  ⟨fun e op => by cases op <;> rfl, fun _ _ _ => rfl, fun _ _ => rfl,
   fun _ _ _ => rfl⟩

/-- C7: every set passed to `__getitem__` — empty or not — raises the
`TypeError`, so no path object is produced. -/
theorem getitem_set_raises_type_error :
    ∀ (cfg : ClientConfig) (s : List String),
      getitem cfg (GetitemArg.set s) = Except.error PyError.typeError :=
  fun _ _ => rfl

/-- C8: whenever `__getitem__` produces a path object, its base URL is
the rendering of the resolved base-url template with every `api` and
`version` replacement field substituted, and carries no trailing
slash. -/
theorem getitem_url_fully_substituted_no_trailing_slash
    (cfg : ClientConfig) (v : GetitemArg) (p : PathObj)
    (h : getitem cfg v = Except.ok p) :
    ∃ u, p.path = [u] ∧ hasTrailingSlash u = false ∧
      ∃ r tmpl toks, getitem_values cfg v = Except.ok r ∧
        r.base_url = some tmpl ∧ pyFormatTokens tmpl.data = some toks ∧
        u = rstripSlash (String.mk
          (renderFmtToks toks (pyStrOpt r.api) (pyStrOpt r.version))) := by
  unfold getitem at h
  split at h
  · cases h
  · next r heq =>
    split at h
    · cases h
    · next tmpl hb =>
      split at h
      · cases h
      · next toks hp =>
        cases h
        exact ⟨_, rfl, hasTrailingSlash_rstripSlash _, r, tmpl, toks, heq, hb,
          hp, rfl⟩

/-- C8, witness at the single-endpoint access `client["help"]` under the
default configuration. -/
theorem getitem_url_fully_substituted_no_trailing_slash_witness :
    ∃ u, (PathObj.mk ["https://help.twitter.com/1.1"] (some ".json") false).path
        = [u] ∧
      hasTrailingSlash u = false ∧
      ∃ r tmpl toks,
        getitem_values twitterConfig (GetitemArg.str "help") = Except.ok r ∧
        r.base_url = some tmpl ∧ pyFormatTokens tmpl.data = some toks ∧
        u = rstripSlash (String.mk
          (renderFmtToks toks (pyStrOpt r.api) (pyStrOpt r.version))) :=
  getitem_url_fully_substituted_no_trailing_slash twitterConfig
    (GetitemArg.str "help")
    (PathObj.mk ["https://help.twitter.com/1.1"] (some ".json") false) rfl

/-- C9: each delegated operation on the envelope equals the same
operation on the wrapped payload, while the envelope's own headers, url
and request attributes remain directly accessible. -/
theorem peony_response_delegation :
    ∀ (p hs u rq k : PyObj),
      envGetitem ⟨p, hs, u, rq⟩ k = pyGetitem p k ∧
      envIter ⟨p, hs, u, rq⟩ = pyIter p ∧
      envLen ⟨p, hs, u, rq⟩ = pyLen p ∧
      envStr ⟨p, hs, u, rq⟩ = pyStr p ∧
      envRepr ⟨p, hs, u, rq⟩ = pyRepr p ∧
      envAttr ⟨p, hs, u, rq⟩ "headers" = some hs ∧
      envAttr ⟨p, hs, u, rq⟩ "url" = some u ∧
      envAttr ⟨p, hs, u, rq⟩ "request" = some rq :=
  fun _ _ _ _ _ => ⟨rfl, rfl, rfl, rfl, rfl, rfl, rfl, rfl⟩

/-- C10: a dict argument is read at exactly the four keys `api`,
`version`, `suffix`, `base_url`, whose values are used verbatim — a
`None` value is not replaced by the client-level default — and a missing
key raises the corresponding `KeyError` (checked in that order). -/
theorem getitem_dict_reads_four_keys_verbatim (cfg : ClientConfig)
    (d : List (String × Option String)) :
    (∀ a vv sfx bu, dictLookup d "api" = some a →
      dictLookup d "version" = some vv → dictLookup d "suffix" = some sfx →
      dictLookup d "base_url" = some bu →
      getitem_values cfg (GetitemArg.dict d) = Except.ok ⟨a, vv, sfx, bu⟩) ∧
    (dictLookup d "api" = Option.none →
      getitem_values cfg (GetitemArg.dict d) =
        Except.error (PyError.keyError "api")) ∧
    (∀ a, dictLookup d "api" = some a → dictLookup d "version" = Option.none →
      getitem_values cfg (GetitemArg.dict d) =
        Except.error (PyError.keyError "version")) ∧
    (∀ a vv, dictLookup d "api" = some a → dictLookup d "version" = some vv →
      dictLookup d "suffix" = Option.none →
      getitem_values cfg (GetitemArg.dict d) =
        Except.error (PyError.keyError "suffix")) ∧
    (∀ a vv sfx, dictLookup d "api" = some a →
      dictLookup d "version" = some vv → dictLookup d "suffix" = some sfx →
      dictLookup d "base_url" = Option.none →
      getitem_values cfg (GetitemArg.dict d) =
        Except.error (PyError.keyError "base_url")) := by
  refine ⟨fun a vv sfx bu h1 h2 h3 h4 => ?_, fun h1 => ?_,
    fun a h1 h2 => ?_, fun a vv h1 h2 h3 => ?_, fun a vv sfx h1 h2 h3 h4 => ?_⟩
  · simp only [getitem_values, h1, h2, h3, h4]
  · simp only [getitem_values, h1]
  · simp only [getitem_values, h1, h2]
  · simp only [getitem_values, h1, h2, h3]
  · simp only [getitem_values, h1, h2, h3, h4]

/-- C10, witness: all four keys present, a `None` version kept verbatim
(not replaced by the default `1.1`), an extra key ignored. -/
theorem getitem_dict_reads_four_keys_verbatim_witness :
    getitem_values twitterConfig
        (GetitemArg.dict [("api", some "a"), ("version", Option.none),
          ("suffix", some ".json"), ("base_url", some "u"),
          ("extra", some "zz")]) =
      Except.ok ⟨some "a", Option.none, some ".json", some "u"⟩ :=
  (getitem_dict_reads_four_keys_verbatim twitterConfig
      [("api", some "a"), ("version", Option.none), ("suffix", some ".json"),
        ("base_url", some "u"), ("extra", some "zz")]).1
    (some "a") Option.none (some ".json") (some "u") rfl rfl rfl rfl


